import Mathlib

/-!
Verification of the authentication credential subsystem of the `app_auth`
service: RSA key lifecycle (`core/security.py`), access/refresh token
issuance and validation (`services/auth_service.py`), and refresh-token
record storage (`sql/crud.py`, `sql/models.py`).

The Python code is embedded shallowly: database rows become structures,
the database session becomes an explicit `Db` value threaded through the
operations, raised `HTTPException`s become `Except` errors, timestamps
become integers, and the module-level RSA key pair becomes an abstract
string identity (the JWT signature check is modelled as agreement of the
signing key with the pinned verification key, with RS256 semantics: a
token verifies exactly under the public half of the keypair that signed
it).
-/

namespace AppAuth

/-! ## Data model (sql/models.py) -/

/-- Row of the `users` table. -/
structure User where
  id : Nat
  username : String
  hashed_password : String
  role_id : Nat
  deriving DecidableEq, Repr

/-- Row of the `roles` table. -/
structure Role where
  id : Nat
  name : String
  deriving DecidableEq, Repr

/-- Row of the `refresh_tokens` table (`token` column is unique). -/
structure RefreshTokenRec where
  user_id : Nat
  token : String
  expires_at : Int
  revoked : Bool
  deriving DecidableEq, Repr

/-- The database state visible to the auth service. -/
structure Db where
  users : List User
  roles : List Role
  refresh_tokens : List RefreshTokenRec
  deriving DecidableEq, Repr

/-! ## CRUD layer (sql/crud.py) -/

/-- `crud.get_user_by_username`. -/
def get_user_by_username (db : Db) (username : String) : Option User :=
  db.users.find? (fun u => u.username == username)

/-- `crud.get_user` (lookup by primary key). -/
def get_user (db : Db) (user_id : Nat) : Option User :=
  db.users.find? (fun u => u.id == user_id)

/-- `crud.get_role` (lookup by primary key). -/
def get_role (db : Db) (role_id : Nat) : Option Role :=
  db.roles.find? (fun r => r.id == role_id)

/-- `crud.get_refresh_token`: retrieve a refresh token row by its token string. -/
def get_refresh_token (db : Db) (token_str : String) : Option RefreshTokenRec :=
  db.refresh_tokens.find? (fun t => t.token == token_str)

/-- `crud.create_refresh_token_from_schema`: insert a new refresh-token row.
The `token` column carries a unique constraint, so the commit fails (the
insert raises) when a row with the same token value already exists; that
failure is modelled as `none`. -/
def create_refresh_token_from_schema (db : Db) (rt : RefreshTokenRec) : Option Db :=
  if (get_refresh_token db rt.token).isSome then none
  else some { db with refresh_tokens := db.refresh_tokens ++ [rt] }

/-- `crud.revoke_refresh_token`: set `revoked := true` on the row with the
given token value; returns `false` (and leaves the store unchanged) when no
such row exists. -/
def revoke_refresh_token (db : Db) (token_str : String) : Db × Bool :=
  match get_refresh_token db token_str with
  | none => (db, false)
  | some _ =>
    ({ db with refresh_tokens :=
        db.refresh_tokens.map (fun t =>
          if t.token == token_str then { t with revoked := true } else t) },
     true)

/-- `crud.validate_refresh_token`: return the owning user when the token row
exists, is not revoked and is not expired (`token.revoked or
token.expires_at < now` rejects); otherwise `None`. -/
def validate_refresh_token (db : Db) (token_str : String) (now : Int) : Option User :=
  match get_refresh_token db token_str with
  | none => none
  | some tok =>
    if tok.revoked ∨ tok.expires_at < now then none
    else get_user db tok.user_id

/-! ## Key material and token codec (core/security.py) -/

/-- Error raised by the secrets backend's `get_secret`: the secret may be
missing, or present but unreadable/invalid. `ensure_rsa_keys` catches every
exception alike, so the distinction exists only at the backend. -/
inductive SecretErr where
  | notFound
  | corrupt
  deriving DecidableEq, Repr

deriving instance DecidableEq for Except

/-- The AWS Secrets Manager backend as `ensure_rsa_keys` sees it: the two
`get_secret` outcomes for the private/public key names, and whether the
`create_secret` calls succeed. -/
structure SecretsBackend where
  get_private : Except SecretErr String
  get_public : Except SecretErr String
  create_ok : Bool
  deriving DecidableEq, Repr

/-- What a run of `ensure_rsa_keys` produced: the returned PEM pair, whether
it fell through to generating a fresh keypair, and whether a fresh keypair
was stored in the backend. -/
structure EnsureKeysResult where
  private_pem : String
  public_pem : String
  generated : Bool
  persisted : Bool
  deriving DecidableEq, Repr

/-- `security.ensure_rsa_keys`: try to load both keys; on ANY exception
(`except Exception`) fall through to generating a fresh keypair; try to
persist it, and on ANY exception print a warning and continue; return the
keys either way. `fresh_private`/`fresh_public` stand for the keypair
`rsa.generate_private_key` would produce on this run. -/
def ensure_rsa_keys (b : SecretsBackend) (fresh_private fresh_public : String) :
    EnsureKeysResult :=
  match b.get_private, b.get_public with
  | .ok p, .ok q => ⟨p, q, false, false⟩
  | _, _ => ⟨fresh_private, fresh_public, true, b.create_ok⟩

/-- The module-level `PRIVATE_PEM` global (set once at import). -/
def PRIVATE_PEM : String := "RSA-PRIVATE-KEY-PEM"

/-- The module-level `PUBLIC_PEM` global (set once at import). -/
def PUBLIC_PEM : String := "RSA-PUBLIC-KEY-PEM"

/-- RS256 pairing: the public key under which a signature by `priv`
verifies. -/
def pairedPublic (priv : String) : String :=
  if priv = PRIVATE_PEM then PUBLIC_PEM else priv ++ ":pub"

/-- JWT access-token payload built by `create_access_token`: exactly the
fields `sub`, `user_id`, `rol`, `iat`, `exp`. -/
structure Payload where
  sub : String
  user_id : Nat
  rol : String
  iat : Int
  exp : Int
  deriving DecidableEq, Repr

/-- A signed JWT: the payload together with the private key that signed it
(`jwt.encode(payload, PRIVATE_PEM, algorithm="RS256")`). -/
structure Jwt where
  payload : Payload
  signed_with : String
  deriving DecidableEq, Repr

/-- `security.create_access_token`: payload `sub`/`user_id`/`rol` from the
arguments, `iat := now`, `exp := now + expires_delta`, signed with the
module-level private key. -/
def create_access_token (subject : String) (user_id : Nat) (rol : String)
    (now : Int) (expires_delta : Int) : Jwt :=
  { payload := { sub := subject, user_id := user_id, rol := rol,
                 iat := now, exp := now + expires_delta },
    signed_with := PRIVATE_PEM }

/-- `security.decode_token`: verify against the module-level public key,
reject an expired token, otherwise return the payload. Error strings are
the `ValueError` messages of the source. -/
def decode_token (token : Jwt) (now : Int) : Except String Payload :=
  if pairedPublic token.signed_with ≠ PUBLIC_PEM then
    .error "Invalid signature - check your RSA keys"
  else if token.payload.exp ≤ now then
    .error "Token expired"
  else
    .ok token.payload

/-! ## Credential service (services/auth_service.py) -/

/-- A raised `fastapi.HTTPException`: status, detail, and the optional
`WWW-Authenticate` header. -/
structure HTTPException where
  status_code : Nat
  detail : String
  www_authenticate : Option String
  deriving DecidableEq, Repr

/-- The 401 raised by `login_service` for a missing user or a failed
password check (one raise site for both cases). -/
def invalidCredentialsError : HTTPException :=
  ⟨401, "Credenciales inválidas", some "Basic"⟩

/-- The 401 raised when the user's role row is missing. -/
def invalidRoleError : HTTPException :=
  ⟨401, "Rol inválido", some "Basic"⟩

/-- The 500 raised by `login_service` when the refresh record was not
persisted. -/
def loginInternalError : HTTPException :=
  ⟨500, "Error interno en el servicio de login", some "Basic"⟩

/-- The 401 raised inside the try block of `refresh_token_service` when no
row matches the presented refresh token. Never reaches the caller: the
function's catch-all handler replaces it (see `refreshInternalError`). -/
def invalidRefreshError : HTTPException :=
  ⟨401, "Refresh token inválido", none⟩

/-- The 401 raised inside the try block of `refresh_token_service` for a
revoked or expired refresh token. Never reaches the caller. -/
def expiredOrRevokedError : HTTPException :=
  ⟨401, "Refresh token expirado o revocado", none⟩

/-- The 404 raised inside the try block of `refresh_token_service` when the
token's owning user row is gone. Never reaches the caller. -/
def userNotFoundError : HTTPException :=
  ⟨404, "Usuario no encontrado", none⟩

/-- The 500 raised by `refresh_token_service`'s enclosing
`except Exception` handler. `fastapi.HTTPException` subclasses `Exception`
and, unlike `login_service`, this function has no `except HTTPException:
raise`, so every internal raise is caught here and this is the one error
the caller can ever see. -/
def refreshInternalError : HTTPException :=
  ⟨500, "Error interno en el servicio de refresh", none⟩

/-- Successful login body: both tokens. -/
structure TokenResponse where
  access_token : Jwt
  refresh_token : String
  token_type : String
  deriving DecidableEq, Repr

/-- Successful refresh body: a new access token only. -/
structure AccessResponse where
  access_token : Jwt
  token_type : String
  deriving DecidableEq, Repr

/-- `auth_service.login_service`. `verify` is the bcrypt collaborator
(`security.verify_password`), `new_refresh_token` the value
`secrets.token_urlsafe(64)` produced on this run, `now` the current time.
Returns the HTTP outcome together with the resulting database state:
access token TTL 15 minutes, refresh record TTL 7 days, and a 500 (no
tokens) when the record was not persisted. -/
def login_service (verify : String → String → Bool) (db : Db)
    (username password new_refresh_token : String) (now : Int) :
    Except HTTPException TokenResponse × Db :=
  match get_user_by_username db username with
  | none => (.error invalidCredentialsError, db)
  | some user =>
    if ! verify password user.hashed_password then
      (.error invalidCredentialsError, db)
    else
      match get_role db user.role_id with
      | none => (.error invalidRoleError, db)
      | some role =>
        match create_refresh_token_from_schema db
            { user_id := user.id, token := new_refresh_token,
              expires_at := now + 7 * 86400, revoked := false } with
        | none => (.error loginInternalError, db)
        | some db' =>
          (.ok { access_token := create_access_token user.username user.id role.name now (15 * 60),
                 refresh_token := new_refresh_token,
                 token_type := "bearer" }, db')

/-- The try block of `auth_service.refresh_token_service`: look up the row,
reject missing then revoked-or-expired then missing-user then missing-role,
else mint a fresh 15-minute access token under the user's current role. The
errors raised here are internal: the enclosing handler rewrites them. -/
def refresh_token_body (db : Db) (refresh_token_str : String) (now : Int) :
    Except HTTPException AccessResponse :=
  match get_refresh_token db refresh_token_str with
  | none => .error invalidRefreshError
  | some db_token =>
    if db_token.revoked ∨ db_token.expires_at < now then
      .error expiredOrRevokedError
    else
      match get_user db db_token.user_id with
      | none => .error userNotFoundError
      | some user =>
        match get_role db user.role_id with
        | none => .error invalidRoleError
        | some role =>
          .ok { access_token := create_access_token user.username user.id role.name now (15 * 60),
                token_type := "bearer" }

/-- `auth_service.refresh_token_service`: the try block's result, with the
whole body wrapped in `except Exception` — every `HTTPException` the body
raises (the 401s and the 404 alike) is caught there and replaced by the one
identical 500 `refreshInternalError`. -/
def refresh_token_service (db : Db) (refresh_token_str : String) (now : Int) :
    Except HTTPException AccessResponse :=
  match refresh_token_body db refresh_token_str now with
  | .ok r => .ok r
  | .error _ => .error refreshInternalError

/-! ## Concrete fixtures -/

/-- Fixture user `alice` (id 7, role 1, stored hash "hpw"). -/
def sampleUser : User := ⟨7, "alice", "hpw", 1⟩

/-- Fixture role `admin` (id 1). -/
def sampleRole : Role := ⟨1, "admin"⟩

/-- A refresh-token row whose expiry instant is exactly 5. -/
def boundaryTokenRec : RefreshTokenRec := ⟨7, "tok", 5, false⟩

/-- Store holding `alice`, her role, and the boundary token row. -/
def boundaryDb : Db := ⟨[sampleUser], [sampleRole], [boundaryTokenRec]⟩

/-- A revoked refresh-token row, far from its expiry. -/
def revokedTokenRec : RefreshTokenRec := ⟨7, "rvk", 1000, true⟩

/-- Store holding `alice`, her role, and the revoked token row. -/
def revokedDb : Db := ⟨[sampleUser], [sampleRole], [revokedTokenRec]⟩

/-- A live refresh-token row whose owning user id (9) has no user row. -/
def orphanTokenRec : RefreshTokenRec := ⟨9, "orph", 1000, false⟩

/-- Store holding only the orphaned token row. -/
def orphanDb : Db := ⟨[], [], [orphanTokenRec]⟩

/-- The bcrypt collaborator used in concrete runs: a stored "hash" verifies
exactly the equal plaintext. -/
def eqVerify : String → String → Bool := fun plain hashed => plain == hashed

/-! ## Shared lemmas -/

/-- Any failure to load either secret makes `ensure_rsa_keys` fall through
to the generation-and-persist path, whatever the failure was. -/
theorem ensure_rsa_keys_fall_through (b : SecretsBackend) (fp fq : String)
    (h : b.get_private.toOption = none ∨ b.get_public.toOption = none) :
    ensure_rsa_keys b fp fq = ⟨fp, fq, true, b.create_ok⟩ := by
  cases hp : b.get_private with
  | error e => cases hq : b.get_public with
    | error e' => simp [ensure_rsa_keys, hp, hq]
    | ok q => simp [ensure_rsa_keys, hp, hq]
  | ok p => cases hq : b.get_public with
    | error e' => simp [ensure_rsa_keys, hp, hq]
    | ok q => rw [hp, hq] at h; simp [Except.toOption] at h

/-! ## C2 -/

/-- Claim C2 counterexample: with both secrets present but corrupt, the code
does not fail with a distinct error kind; it generates a fresh keypair and
persists it. -/
theorem ensure_rsa_keys_corrupt_fatal_cex :
    ensure_rsa_keys ⟨.error .corrupt, .error .corrupt, true⟩ "FRESH-PRIV" "FRESH-PUB" =
      ⟨"FRESH-PRIV", "FRESH-PUB", true, true⟩ := rfl

/-- Claim C2 (amended): when the backing store's key pair loads as corrupt,
`ensure_rsa_keys` does not fail at all: the corrupt case is caught like any
other load failure and the code falls through to generating a fresh keypair
and attempting to persist it. -/
theorem ensure_rsa_keys_corrupt_load_regenerates (b : SecretsBackend) (fp fq : String)
    (h : b.get_private = .error .corrupt ∨ b.get_public = .error .corrupt) :
    ensure_rsa_keys b fp fq = ⟨fp, fq, true, b.create_ok⟩ := by
  apply ensure_rsa_keys_fall_through
  cases h with
  | inl h' => exact Or.inl (by rw [h']; rfl)
  | inr h' => exact Or.inr (by rw [h']; rfl)

/-- Claim C2 witness: a store whose private-key secret reads back corrupt. -/
theorem ensure_rsa_keys_corrupt_load_regenerates_witness :
    ensure_rsa_keys ⟨.error .corrupt, .ok "OLD-PUB", false⟩ "NP" "NQ" =
      ⟨"NP", "NQ", true, false⟩ :=
  ensure_rsa_keys_corrupt_load_regenerates _ "NP" "NQ" (Or.inl rfl)

/-! ## C3 -/

/-- Claim C3 counterexample: generation happened, persisting failed
(`persisted = false`), and `ensure_rsa_keys` still returns the unpersisted
keypair instead of failing startup. -/
theorem ensure_rsa_keys_persist_failure_fatal_cex :
    ensure_rsa_keys ⟨.error .notFound, .error .notFound, false⟩ "FP" "FQ" =
      ⟨"FP", "FQ", true, false⟩ := rfl

/-- Claim C3 (amended): when a fresh keypair is generated and persisting it
fails, `ensure_rsa_keys` logs a warning and returns the unpersisted keypair;
startup continues (the function has no failing outcome). -/
theorem ensure_rsa_keys_persist_failure_not_fatal (b : SecretsBackend) (fp fq : String)
    (h1 : b.get_private.toOption = none ∨ b.get_public.toOption = none)
    (h2 : b.create_ok = false) :
    ensure_rsa_keys b fp fq = ⟨fp, fq, true, false⟩ := by
  rw [ensure_rsa_keys_fall_through b fp fq h1, h2]

/-- Claim C3 witness: missing keys, failing persist. -/
theorem ensure_rsa_keys_persist_failure_not_fatal_witness :
    ensure_rsa_keys ⟨.error .notFound, .error .corrupt, false⟩ "GP" "GQ" =
      ⟨"GP", "GQ", true, false⟩ :=
  ensure_rsa_keys_persist_failure_not_fatal _ "GP" "GQ" (Or.inl rfl) rfl

/-! ## C8 -/

/-- Claim C8: decoding an encoded token before its expiry returns exactly
the input claims; the payload carries exactly `sub`, `user_id`, `rol`,
`iat = now` and `exp = now + ttl`. -/
theorem token_roundtrip (subject : String) (uid : Nat) (rol : String)
    (now ttl decode_now : Int) (h : decode_now < now + ttl) :
    decode_token (create_access_token subject uid rol now ttl) decode_now =
      .ok { sub := subject, user_id := uid, rol := rol, iat := now, exp := now + ttl } := by
  have hkey : pairedPublic PRIVATE_PEM = PUBLIC_PEM := by simp [pairedPublic]
  simp [decode_token, create_access_token, hkey, not_le.mpr h]

/-- Claim C8 witness: concrete claims, decoded half way to expiry. -/
theorem token_roundtrip_witness :
    decode_token (create_access_token "alice" 7 "admin" 100 900) 500 =
      .ok { sub := "alice", user_id := 7, rol := "admin", iat := 100, exp := 1000 } :=
  token_roundtrip "alice" 7 "admin" 100 900 500 (by decide)

/-! ## C10 -/

/-- Claim C10 counterexample: with a live, unexpired record whose owning
user row is gone, the caller does not see a 404 — the operation returns the
same 500 as a refresh with a token that is not in the store at all. -/
theorem refresh_missing_user_not_404_cex :
    refresh_token_service orphanDb "orph" 0 = .error refreshInternalError ∧
    refreshInternalError.status_code ≠ 404 ∧
    refresh_token_service orphanDb "missing" 0 = .error refreshInternalError := by
  exact ⟨by decide, by decide, by decide⟩

/-- Claim C10 (amended): a refresh with a live, unexpired record whose
owning user row is gone raises the 404 "Usuario no encontrado" only inside
the try block; the enclosing `except Exception` swallows it and the caller
receives the identical 500 "Error interno en el servicio de refresh" as
every other refresh failure, with no access token. -/
theorem refresh_missing_user_swallowed_500 (db : Db) (t : String) (now : Int)
    (tok : RefreshTokenRec)
    (h1 : get_refresh_token db t = some tok)
    (h2 : tok.revoked = false)
    (h3 : ¬ tok.expires_at < now)
    (h4 : get_user db tok.user_id = none) :
    refresh_token_body db t now = .error userNotFoundError ∧
      refresh_token_service db t now = .error refreshInternalError ∧
      userNotFoundError.status_code = 404 ∧
      refreshInternalError.status_code = 500 := by
  have hbody : refresh_token_body db t now = .error userNotFoundError := by
    simp [refresh_token_body, h1, h2, h3, h4]
  exact ⟨hbody, by simp [refresh_token_service, hbody], rfl, rfl⟩

/-- Claim C10 witness: the orphaned-token store. -/
theorem refresh_missing_user_swallowed_500_witness :
    refresh_token_body orphanDb "orph" 3 = .error userNotFoundError ∧
      refresh_token_service orphanDb "orph" 3 = .error refreshInternalError ∧
      userNotFoundError.status_code = 404 ∧
      refreshInternalError.status_code = 500 :=
  refresh_missing_user_swallowed_500 orphanDb "orph" 3 orphanTokenRec
    (by decide) (by decide) (by decide) (by decide)

/-! ## C1 -/

/-- Claim C1 counterexample: the one error the caller sees for a missing or
a revoked refresh token is the catch-all 500 "Error interno en el servicio
de refresh", not a 401 InvalidOrExpiredRefreshToken credential error. -/
theorem refresh_error_not_401_cex :
    refresh_token_service revokedDb "missing" 0 = .error refreshInternalError ∧
    refresh_token_service revokedDb "rvk" 0 = .error refreshInternalError ∧
    refreshInternalError.status_code ≠ 401 := by
  exact ⟨by decide, by decide, by decide⟩

/-- Claim C1 (amended): every refresh with a token that is missing, revoked
or expired fails with one single externally-visible error, identical across
all three cases, and no access token — but that error is the catch-all
handler's HTTP 500 "Error interno en el servicio de refresh" (shared with
every other refresh failure), not a distinct 401 credential error: the
internal 401s never escape the function. -/
theorem refresh_invalid_collapsed_to_500 (db : Db) (t : String) (now : Int) :
    (get_refresh_token db t = none →
      refresh_token_body db t now = .error invalidRefreshError ∧
      refresh_token_service db t now = .error refreshInternalError) ∧
    (∀ tok, get_refresh_token db t = some tok →
      (tok.revoked = true ∨ tok.expires_at < now) →
      refresh_token_body db t now = .error expiredOrRevokedError ∧
      refresh_token_service db t now = .error refreshInternalError) := by
  constructor
  · intro h
    have hbody : refresh_token_body db t now = .error invalidRefreshError := by
      simp [refresh_token_body, h]
    exact ⟨hbody, by simp [refresh_token_service, hbody]⟩
  · intro tok h hc
    have hbody : refresh_token_body db t now = .error expiredOrRevokedError := by
      simp only [refresh_token_body, h]
      rw [if_pos hc]
    exact ⟨hbody, by simp [refresh_token_service, hbody]⟩

/-- Claim C1 witness: both invalid cases on the revoked-token store. -/
theorem refresh_invalid_collapsed_to_500_witness :
    (refresh_token_body revokedDb "missing" 1 = .error invalidRefreshError ∧
      refresh_token_service revokedDb "missing" 1 = .error refreshInternalError) ∧
    (refresh_token_body revokedDb "rvk" 1 = .error expiredOrRevokedError ∧
      refresh_token_service revokedDb "rvk" 1 = .error refreshInternalError) :=
  ⟨(refresh_invalid_collapsed_to_500 revokedDb "missing" 1).1 (by decide),
   (refresh_invalid_collapsed_to_500 revokedDb "rvk" 1).2 revokedTokenRec
     (by decide) (Or.inl (by decide))⟩

/-! ## C5 -/

/-- Claim C5: a login with an unknown username and a login with a known user
but a failing password check raise the identical `invalidCredentialsError`
(one raise site, indistinguishable to the caller), return no tokens, and
leave the store unchanged (no refresh record created). -/
theorem login_invalid_credentials_uniform (verify : String → String → Bool)
    (db : Db) (u p rv : String) (now : Int) :
    (get_user_by_username db u = none →
      login_service verify db u p rv now = (.error invalidCredentialsError, db)) ∧
    (∀ user, get_user_by_username db u = some user →
      verify p user.hashed_password = false →
      login_service verify db u p rv now = (.error invalidCredentialsError, db)) := by
  constructor
  · intro h
    simp [login_service, h]
  · intro user h hv
    simp [login_service, h, hv]

/-- Claim C5 witness: unknown user `nobody`, then `alice` with a wrong
password, on the same store. -/
theorem login_invalid_credentials_uniform_witness :
    login_service eqVerify boundaryDb "nobody" "x" "r" 0 =
      (.error invalidCredentialsError, boundaryDb) ∧
    login_service eqVerify boundaryDb "alice" "wrong" "r" 0 =
      (.error invalidCredentialsError, boundaryDb) :=
  ⟨(login_invalid_credentials_uniform eqVerify boundaryDb "nobody" "x" "r" 0).1 (by decide),
   (login_invalid_credentials_uniform eqVerify boundaryDb "alice" "wrong" "r" 0).2 sampleUser
     (by decide) (by decide)⟩

/-! ## C6 -/

/-- Claim C6 counterexample: at `now` equal to the record's `expires_at`
(expiry not strictly in the future), the code still accepts the token:
validity is `expires_at ≥ now`, not the claimed strict `expires_at > now`. -/
theorem validate_refresh_token_boundary_cex :
    validate_refresh_token boundaryDb "tok" 5 = some sampleUser ∧
    get_refresh_token boundaryDb "tok" = some boundaryTokenRec ∧
    ¬ (5 : Int) < boundaryTokenRec.expires_at := by
  exact ⟨by decide, by decide, by decide⟩

/-- Claim C6 (amended): `validate_refresh_token` returns an owner exactly
when the record exists, `revoked` is false, `expires_at ≥ now` (a record
with `expires_at` strictly in the past is invalid even with
`revoked = false`), and the owning user row exists; the predicate is a pure
function of the current store and time, recomputed on each call. -/
theorem validate_refresh_token_characterization (db : Db) (t : String) (now : Int) :
    (∃ u, validate_refresh_token db t now = some u) ↔
    (∃ tok, get_refresh_token db t = some tok ∧ tok.revoked = false ∧
      now ≤ tok.expires_at ∧ ∃ u, get_user db tok.user_id = some u) := by
  constructor
  · rintro ⟨u, hu⟩
    unfold validate_refresh_token at hu
    split at hu
    · exact absurd hu (by simp)
    · rename_i tok h
      split at hu
      · exact absurd hu (by simp)
      · rename_i hc
        push_neg at hc
        exact ⟨tok, h, by simpa using hc.1, hc.2, u, hu⟩
  · rintro ⟨tok, h1, h2, h3, u, h4⟩
    refine ⟨u, ?_⟩
    simp only [validate_refresh_token, h1]
    rw [if_neg (by simp [h2, h3]), h4]

/-! ## C4 -/

/-- Claim C4: login is atomic. On success the response's refresh token has a
matching record durably present in the resulting store (owned by the
authenticated user, unrevoked, with the 7-day expiry); on any failure —
including a failed persist of the refresh record — no token of any kind is
returned and the store is unchanged. -/
theorem login_service_atomic (verify : String → String → Bool) (db : Db)
    (u p rv : String) (now : Int) :
    (∀ resp db', login_service verify db u p rv now = (.ok resp, db') →
      resp.refresh_token = rv ∧
      ∃ user, get_user_by_username db u = some user ∧
        get_refresh_token db' rv = some ⟨user.id, rv, now + 7 * 86400, false⟩) ∧
    (∀ e db', login_service verify db u p rv now = (.error e, db') → db' = db) := by
  constructor
  · intro resp db' h
    unfold login_service at h
    split at h
    · simp at h
    · rename_i user hu
      split at h
      · simp at h
      · split at h
        · simp at h
        · rename_i role hr
          split at h
          · simp at h
          · rename_i db2 hc
            simp only [Prod.mk.injEq, Except.ok.injEq] at h
            obtain ⟨hresp, hdb⟩ := h
            subst hdb
            subst hresp
            refine ⟨rfl, user, hu, ?_⟩
            unfold create_refresh_token_from_schema at hc
            split at hc
            · exact absurd hc (by simp)
            · rename_i hex
              injection hc with hc
              subst hc
              simp only [Option.isSome_iff_exists, not_exists] at hex
              have hnone : get_refresh_token db rv = none := by
                cases hg : get_refresh_token db
                    ({ user_id := user.id, token := rv,
                       expires_at := now + 7 * 86400, revoked := false } : RefreshTokenRec).token with
                | none => rfl
                | some r => exact absurd hg (hex r)
              unfold get_refresh_token at hnone ⊢
              rw [List.find?_append, hnone]
              simp [List.find?]
  · intro e db' h
    unfold login_service at h
    split at h
    · simp at h; exact h.2.symm
    · rename_i user hu
      split at h
      · simp at h; exact h.2.symm
      · split at h
        · simp at h; exact h.2.symm
        · rename_i role hr
          split at h
          · simp at h; exact h.2.symm
          · rename_i db2 hc
            simp at h

/-- Claim C4 witness: a successful login of `alice` into the revoked-token
store persists the matching record. -/
theorem login_service_atomic_witness :
    ({ access_token := create_access_token "alice" 7 "admin" 0 (15 * 60),
       refresh_token := "fresh", token_type := "bearer" } : TokenResponse).refresh_token
        = "fresh" ∧
    ∃ user, get_user_by_username revokedDb "alice" = some user ∧
      get_refresh_token
        { revokedDb with refresh_tokens :=
            revokedDb.refresh_tokens ++ [⟨7, "fresh", 7 * 86400, false⟩] } "fresh"
        = some ⟨user.id, "fresh", 0 + 7 * 86400, false⟩ :=
  (login_service_atomic eqVerify revokedDb "alice" "hpw" "fresh" 0).1
    { access_token := create_access_token "alice" 7 "admin" 0 (15 * 60),
      refresh_token := "fresh", token_type := "bearer" }
    { revokedDb with refresh_tokens :=
        revokedDb.refresh_tokens ++ [⟨7, "fresh", 7 * 86400, false⟩] }
    (by decide)

/-! ## C7 -/

/-- The operations the refresh-token store and the credential service
expose. Lookup, validate and refresh never write; `logout` is a call to
`revoke_refresh_token`. -/
inductive ServiceOp where
  | createTok (rt : RefreshTokenRec)
  | lookupTok (token_str : String)
  | revokeTok (token_str : String)
  | validateTok (token_str : String) (now : Int)
  | loginOp (username password new_refresh_token : String) (now : Int)
  | refreshOp (token_str : String) (now : Int)
  | logoutOp (token_str : String)

/-- Effect of one operation on the store. -/
def serviceStep (verify : String → String → Bool) (db : Db) : ServiceOp → Db
  | .createTok rt => (create_refresh_token_from_schema db rt).getD db
  | .lookupTok _ => db
  | .revokeTok t => (revoke_refresh_token db t).1
  | .validateTok _ _ => db
  | .loginOp u p rv now => (login_service verify db u p rv now).2
  | .refreshOp _ _ => db
  | .logoutOp t => (revoke_refresh_token db t).1

/-- Effect of a sequence of operations on the store. -/
def serviceRun (verify : String → String → Bool) (db : Db) (ops : List ServiceOp) : Db :=
  ops.foldl (serviceStep verify) db

/-- The row with this token value exists and is revoked. -/
def revokedAt (db : Db) (t : String) : Prop :=
  ∃ r, get_refresh_token db t = some r ∧ r.revoked = true

theorem revokedAt_append (db : Db) (t : String) (rt : RefreshTokenRec)
    (h : revokedAt db t) :
    revokedAt { db with refresh_tokens := db.refresh_tokens ++ [rt] } t := by
  obtain ⟨r, hr, hrev⟩ := h
  refine ⟨r, ?_, hrev⟩
  unfold get_refresh_token at hr ⊢
  rw [List.find?_append, hr]
  rfl

theorem create_preserves_revoked (db : Db) (rt : RefreshTokenRec) (t : String)
    (h : revokedAt db t) :
    revokedAt ((create_refresh_token_from_schema db rt).getD db) t := by
  unfold create_refresh_token_from_schema
  split
  · exact h
  · exact revokedAt_append db t rt h

/-- Composing the token predicate with the revoke map leaves it unchanged:
the revoke map never alters the token column. -/
theorem token_pred_comp (t t' : String) :
    ((fun x : RefreshTokenRec => x.token == t) ∘
      (fun x : RefreshTokenRec => if x.token == t' then { x with revoked := true } else x)) =
    (fun x : RefreshTokenRec => x.token == t) := by
  funext x
  cases hx : x.token == t' <;> simp [Function.comp, hx]

theorem revoke_preserves_revoked (db : Db) (t' t : String)
    (h : revokedAt db t) :
    revokedAt (revoke_refresh_token db t').1 t := by
  obtain ⟨r, hr, hrev⟩ := h
  unfold revoke_refresh_token
  split
  · exact ⟨r, hr, hrev⟩
  · refine ⟨if r.token == t' then { r with revoked := true } else r, ?_, ?_⟩
    · unfold get_refresh_token at hr ⊢
      rw [List.find?_map, token_pred_comp, hr]
      rfl
    · cases hx : r.token == t' <;> simp [hx, hrev]

theorem login_preserves_revoked (verify : String → String → Bool) (db : Db)
    (u p rv : String) (now : Int) (t : String) (h : revokedAt db t) :
    revokedAt (login_service verify db u p rv now).2 t := by
  unfold login_service
  split
  · exact h
  · split
    · exact h
    · split
      · exact h
      · split
        · exact h
        · rename_i xu user hu hcond xr role hr xd db2 hc
          have hp := create_preserves_revoked db
            { user_id := user.id, token := rv,
              expires_at := now + 7 * 86400, revoked := false } t h
          rw [hc] at hp
          exact hp

theorem serviceStep_preserves_revoked (verify : String → String → Bool)
    (db : Db) (op : ServiceOp) (t : String) (h : revokedAt db t) :
    revokedAt (serviceStep verify db op) t := by
  cases op with
  | createTok rt => exact create_preserves_revoked db rt t h
  | lookupTok _ => exact h
  | revokeTok t' => exact revoke_preserves_revoked db t' t h
  | validateTok _ _ => exact h
  | loginOp u p rv now => exact login_preserves_revoked verify db u p rv now t h
  | refreshOp _ _ => exact h
  | logoutOp t' => exact revoke_preserves_revoked db t' t h

theorem serviceRun_preserves_revoked (verify : String → String → Bool)
    (ops : List ServiceOp) :
    ∀ db t, revokedAt db t → revokedAt (serviceRun verify db ops) t := by
  induction ops with
  | nil => exact fun db t h => h
  | cons op rest ih =>
    exact fun db t h =>
      ih (serviceStep verify db op) t (serviceStep_preserves_revoked verify db op t h)

/-- A successful `revoke_refresh_token` leaves the row revoked. -/
theorem revoke_marks_revoked (db : Db) (t : String) (r : RefreshTokenRec)
    (hf : get_refresh_token db t = some r) :
    revokedAt (revoke_refresh_token db t).1 t := by
  simp only [revoke_refresh_token, hf]
  refine ⟨if r.token == t then { r with revoked := true } else r, ?_, ?_⟩
  · unfold get_refresh_token at hf ⊢
    rw [List.find?_map, token_pred_comp, hf]
    rfl
  · have hf' : db.refresh_tokens.find? (fun x => x.token == t) = some r := hf
    have hp := List.find?_some hf'
    simp only [] at hp
    simp [hp]

/-- Claim C7: once `revoke_refresh_token` has set `revoked := true` on a
record, no subsequent sequence of store or service operations (create,
lookup, revoke, validate, login, refresh, logout) ever makes it valid
again: the row stays revoked and `validate_refresh_token` rejects it at
every later time. -/
theorem revoke_monotone (verify : String → String → Bool) (db : Db)
    (ops : List ServiceOp) (t : String) (now : Int) (r : RefreshTokenRec)
    (hf : get_refresh_token db t = some r) :
    (∃ r', get_refresh_token (serviceRun verify (revoke_refresh_token db t).1 ops) t = some r'
        ∧ r'.revoked = true) ∧
    validate_refresh_token (serviceRun verify (revoke_refresh_token db t).1 ops) t now = none := by
  have h1 : revokedAt (serviceRun verify (revoke_refresh_token db t).1 ops) t :=
    serviceRun_preserves_revoked verify ops _ t (revoke_marks_revoked db t r hf)
  obtain ⟨r', hr', hrev⟩ := h1
  refine ⟨⟨r', hr', hrev⟩, ?_⟩
  simp only [validate_refresh_token, hr']
  rw [if_pos (Or.inl hrev)]

/-- Claim C7 witness: revoking `tok`, then a successful login and a refresh
attempt, leaves `tok` revoked and invalid. -/
theorem revoke_monotone_witness :
    (∃ r', get_refresh_token (serviceRun eqVerify (revoke_refresh_token boundaryDb "tok").1
        [ServiceOp.loginOp "alice" "hpw" "fresh2" 0, ServiceOp.refreshOp "tok" 0]) "tok"
          = some r' ∧ r'.revoked = true) ∧
    validate_refresh_token (serviceRun eqVerify (revoke_refresh_token boundaryDb "tok").1
        [ServiceOp.loginOp "alice" "hpw" "fresh2" 0, ServiceOp.refreshOp "tok" 0]) "tok" 99
      = none :=
  revoke_monotone eqVerify boundaryDb
    [ServiceOp.loginOp "alice" "hpw" "fresh2" 0, ServiceOp.refreshOp "tok" 0]
    "tok" 99 boundaryTokenRec (by decide)

/-! ## C9 -/

/-- One replica running `ensure_rsa_keys` against the shared secrets store,
broken into its atomic store interactions: pc 0 = try to load the keys
(present keys are returned, otherwise fall through); pc 1 = generate a
fresh keypair; pc 2 = persist it (with overwrite) and return it; pc 3 =
done. `fresh` is the keypair this replica would generate. -/
structure Replica where
  pc : Nat
  fresh : String
  ret : Option String
  deriving DecidableEq, Repr

/-- One atomic step of a replica against the shared store (`none` before
the first persist). No step takes a lock and no step re-checks the store
after generation, because the source does neither. -/
def replicaStep (store : Option String) (r : Replica) : Option String × Replica :=
  match r.pc with
  | 0 =>
    match store with
    | some k => (store, { r with pc := 3, ret := some k })
    | none => (store, { r with pc := 1 })
  | 1 => (store, { r with pc := 2 })
  | 2 => (some r.fresh, { r with pc := 3, ret := some r.fresh })
  | _ => (store, r)

/-- Two replicas and the shared store. -/
structure RaceState where
  store : Option String
  r1 : Replica
  r2 : Replica
  deriving DecidableEq, Repr

/-- Run one step of the chosen replica (true = replica 1 moves). -/
def raceStep (s : RaceState) (first : Bool) : RaceState :=
  match first with
  | true => { s with store := (replicaStep s.store s.r1).1, r1 := (replicaStep s.store s.r1).2 }
  | false => { s with store := (replicaStep s.store s.r2).1, r2 := (replicaStep s.store s.r2).2 }

/-- Run a whole interleaving. -/
def runRace (s : RaceState) (sched : List Bool) : RaceState :=
  sched.foldl raceStep s

/-- A replica about to start. -/
def initialReplica (fresh : String) : Replica := ⟨0, fresh, none⟩

/-- Claim C9 counterexample: starting from an empty store, the interleaving
in which both replicas pass the existence check before either persists has
both generate and persist their own keypair; the two callers return
different key material. -/
theorem ensure_keys_concurrent_race_cex :
    (runRace ⟨none, initialReplica "KEYPAIR-A", initialReplica "KEYPAIR-B"⟩
        [true, false, true, true, false, false]).r1.ret = some "KEYPAIR-A" ∧
    (runRace ⟨none, initialReplica "KEYPAIR-A", initialReplica "KEYPAIR-B"⟩
        [true, false, true, true, false, false]).r2.ret = some "KEYPAIR-B" ∧
    (runRace ⟨none, initialReplica "KEYPAIR-A", initialReplica "KEYPAIR-B"⟩
        [true, false, true, true, false, false]).r1.ret ≠
      (runRace ⟨none, initialReplica "KEYPAIR-A", initialReplica "KEYPAIR-B"⟩
        [true, false, true, true, false, false]).r2.ret := by
  exact ⟨by decide, by decide, by decide⟩

/-- A replica that has not yet touched the store, or one that finished
having read the persisted keypair `k`. -/
def replicaSettled (k : String) (r : Replica) : Prop :=
  (r.pc = 0 ∧ r.ret = none) ∨ (r.pc = 3 ∧ r.ret = some k)

theorem replicaStep_settled (k : String) (r : Replica) (h : replicaSettled k r) :
    (replicaStep (some k) r).1 = some k ∧ replicaSettled k (replicaStep (some k) r).2 := by
  cases h with
  | inl h =>
    obtain ⟨hpc, hret⟩ := h
    simp only [replicaStep, hpc]
    exact ⟨trivial, Or.inr ⟨rfl, rfl⟩⟩
  | inr h =>
    obtain ⟨hpc, hret⟩ := h
    simp only [replicaStep, hpc]
    exact ⟨trivial, Or.inr ⟨hpc, hret⟩⟩

/-- Both replicas settled over an already-initialized store. -/
def raceInv (k : String) (s : RaceState) : Prop :=
  s.store = some k ∧ replicaSettled k s.r1 ∧ replicaSettled k s.r2

theorem raceStep_inv (k : String) (s : RaceState) (b : Bool) (h : raceInv k s) :
    raceInv k (raceStep s b) := by
  obtain ⟨hs, h1, h2⟩ := h
  cases b with
  | true =>
    refine ⟨?_, ?_, h2⟩
    · show (replicaStep s.store s.r1).1 = some k
      rw [hs]
      exact (replicaStep_settled k s.r1 h1).1
    · show replicaSettled k (replicaStep s.store s.r1).2
      rw [hs]
      exact (replicaStep_settled k s.r1 h1).2
  | false =>
    refine ⟨?_, h1, ?_⟩
    · show (replicaStep s.store s.r2).1 = some k
      rw [hs]
      exact (replicaStep_settled k s.r2 h2).1
    · show replicaSettled k (replicaStep s.store s.r2).2
      rw [hs]
      exact (replicaStep_settled k s.r2 h2).2

theorem runRace_inv (k : String) (sched : List Bool) :
    ∀ s, raceInv k s → raceInv k (runRace s sched) := by
  induction sched with
  | nil => exact fun s h => h
  | cons b rest ih => exact fun s h => ih (raceStep s b) (raceStep_inv k s b h)

/-- Claim C9 (amended): `ensure_rsa_keys` takes no cross-replica lock and
never re-checks the store after generating. The guarantee that does hold is
for a store already holding a keypair before any replica starts: under
every interleaving the store is never overwritten and each replica that
finished returned exactly the stored material. With an initially empty
store, concurrent startup can persist two keypairs and return differing
material (see the counterexample). -/
theorem ensure_keys_existing_store_agree (k f1 f2 : String) (sched : List Bool) :
    (runRace ⟨some k, initialReplica f1, initialReplica f2⟩ sched).store = some k ∧
    ((runRace ⟨some k, initialReplica f1, initialReplica f2⟩ sched).r1.ret = none ∨
      (runRace ⟨some k, initialReplica f1, initialReplica f2⟩ sched).r1.ret = some k) ∧
    ((runRace ⟨some k, initialReplica f1, initialReplica f2⟩ sched).r2.ret = none ∨
      (runRace ⟨some k, initialReplica f1, initialReplica f2⟩ sched).r2.ret = some k) := by
  obtain ⟨hs, h1, h2⟩ := runRace_inv k sched ⟨some k, initialReplica f1, initialReplica f2⟩
    ⟨rfl, Or.inl ⟨rfl, rfl⟩, Or.inl ⟨rfl, rfl⟩⟩
  refine ⟨hs, ?_, ?_⟩
  · cases h1 with
    | inl h => exact Or.inl h.2
    | inr h => exact Or.inr h.2
  · cases h2 with
    | inl h => exact Or.inl h.2
    | inr h => exact Or.inr h.2

end AppAuth
